import Mathlib

/-!
Shallow embedding of `src/spring_distance_measurement_1.ino`, an Arduino
sketch that polls a VL53L0X time-of-flight sensor and streams
threshold-filtered readings over a serial link.

Modelling decisions:
* Floating-point values (`float` in the sketch) are embedded as rationals.
* Serial text output is modelled at line granularity: the three calls
  `Serial.print(elapsedTime, 3); Serial.print(" "); Serial.println(distance)`
  assemble one completed line, recorded as a single `Effect.serialLine`.
* The numeric rendering follows the Arduino core `Print::printFloat`
  routine (sign, add `0.5 / 10^digits`, truncate the integer part, then
  peel `digits` fractional digits by repeated multiplication by 10).
* The sketch runs under the Arduino runtime: `setup()` once, then `loop()`
  forever.  This is embedded as a step machine over `ExecState` driven by
  an environment `Env` supplying the results of `millis()`,
  `sensor.readRangeContinuousMillimeters()` and `sensor.init()`.
-/

/-- `#define intLED 8` -/
def intLED : Nat := 8

/-- `const float DISTANCE_THRESHOLD = 600.0;  // mm` -/
def DISTANCE_THRESHOLD : ℚ := 600.0

/-- Fractional-digit loop of the Arduino core `Print::printFloat`:
repeatedly multiply the remainder by 10 and print its integer part. -/
def fracDigits : ℚ → Nat → String
  | _, 0 => ""
  | r, d + 1 =>
    let r10 := r * 10
    let dgt : ℕ := ⌊r10⌋₊
    toString dgt ++ fracDigits (r10 - (dgt : ℚ)) d

/-- Arduino core `Print::printFloat(number, digits)`: print a minus sign for
a negative number, add a rounding term of `0.5 / 10^digits`, print the
truncated integer part, a decimal point, then `digits` fractional digits.
(The C cast `(unsigned long)number` truncates a nonnegative value toward
zero, which is `Nat.floor`.) -/
def printFloat (x : ℚ) (digits : Nat) : String :=
  let sign := if x < 0 then "-" else ""
  let y := (if x < 0 then -x else x) + 1 / (2 * 10 ^ digits)
  let ip : ℕ := ⌊y⌋₊
  let rem := y - (ip : ℚ)
  sign ++ toString ip ++ (if digits = 0 then "" else "." ++ fracDigits rem digits)

/-- One value returned by `sensor.readRangeContinuousMillimeters()`.  The
library call surfaces only a number; whether the sensor internally produced
a valid in-range measurement (`ok`) is not observable through the value and
is carried here only to state that the sketch cannot depend on it. -/
structure Reading where
  value : ℚ
  ok : Bool
deriving DecidableEq

/-- External inputs of one run: the result of `sensor.init()`, the value of
`millis()` observed by iteration `k`, and the reading returned by the
sensor in iteration `k`. -/
structure Env where
  initOk : Bool
  ticks : Nat → Nat
  samples : Nat → Reading

/-- Observable effects of the sketch on its environment. -/
inductive Effect where
  | serialBegin (baud : Nat)
  | wireBegin (sda scl : Nat)
  | delayMs (ms : Nat)
  | serialLine (s : String)
  | pinMode (pin : Nat) (isOutput : Bool)
  | digitalWrite (pin : Nat) (high : Bool)
  | setTimeout (ms : Nat)
  | sensorInit (ok : Bool)
  | startContinuous
  | readRange (v : ℚ)
deriving DecidableEq

/-- Effects of `setup()`, whose control flow depends only on the result of
`sensor.init()`.  On failure the failure line is printed and the sketch
enters `while (1) {}` (see `step`); on success continuous mode is started
and the success line is printed. -/
def setup (initOk : Bool) : List Effect :=
  [Effect.serialBegin 115200,
   Effect.wireBegin 6 5,
   Effect.delayMs 500,
   Effect.serialLine "Initializing...",
   Effect.pinMode intLED true,
   Effect.setTimeout 1000,
   Effect.sensorInit initOk] ++
  (if initOk then
    [Effect.startContinuous,
     Effect.serialLine "Sensor initialized successfully."]
  else
    [Effect.serialLine "Failed to initialize sensor! Restarting..."])

/-- Effects of one call of `loop()`: read `millis()`, read the sensor, and
print the line `elapsedTime space distance` only when the distance is below
the threshold.  `elapsedTime = millis() / 1000.0`; the time is printed with
3 decimal places and `Serial.println(distance)` uses the default 2. -/
def loop (tick : Nat) (r : Reading) : List Effect :=
  let elapsedTime : ℚ := (tick : ℚ) / 1000
  let distance : ℚ := r.value
  [Effect.readRange distance] ++
  (if distance < DISTANCE_THRESHOLD then
    [Effect.serialLine (printFloat elapsedTime 3 ++ " " ++ printFloat distance 2)]
  else
    [])

/-- Control state of the run: before `setup`, stuck in the failure
busy-wait, running with `k` completed `loop()` iterations, or exited.
The sketch has no exit path, so no step ever produces `done`; the
constructor exists so that non-termination is a provable statement rather
than a built-in assumption. -/
inductive ExecState where
  | boot
  | halted
  | running (iters : Nat)
  | done
deriving DecidableEq

/-- One execution step of the sketch under environment `env`: `boot` runs
`setup()` and either enters the poll loop or the `while (1) {}` busy-wait;
`halted` spins without effects; `running k` performs iteration `k` of
`loop()`. -/
def step (env : Env) : ExecState → ExecState × List Effect
  | ExecState.boot =>
      if env.initOk then (ExecState.running 0, setup true)
      else (ExecState.halted, setup false)
  | ExecState.halted => (ExecState.halted, [])
  | ExecState.running k => (ExecState.running (k + 1), loop (env.ticks k) (env.samples k))
  | ExecState.done => (ExecState.done, [])

/-- State and cumulative effect trace after `n` steps from `boot`. -/
def run (env : Env) : Nat → ExecState × List Effect
  | 0 => (ExecState.boot, [])
  | n + 1 =>
    let p := run env n
    let q := step env p.1
    (q.1, p.2 ++ q.2)

/-- The text lines that appeared on the serial link, in order. -/
def linesOf (effs : List Effect) : List String :=
  effs.filterMap fun e =>
    match e with
    | Effect.serialLine s => some s
    | _ => none

/-- The `digitalWrite` calls in a trace, in order. -/
def writesOf (effs : List Effect) : List (Nat × Bool) :=
  effs.filterMap fun e =>
    match e with
    | Effect.digitalWrite p b => some (p, b)
    | _ => none

/-- How many times continuous-sampling mode was enabled in a trace. -/
def countStartContinuous (effs : List Effect) : Nat :=
  effs.countP fun e => decide (e = Effect.startContinuous)

/-- How many times the sensor was read in a trace. -/
def countReads (effs : List Effect) : Nat :=
  effs.countP fun e =>
    match e with
    | Effect.readRange _ => true
    | _ => false

/-- The effect trace contributed by the first `n` iterations of `loop()`. -/
def loopOut (env : Env) : Nat → List Effect
  | 0 => []
  | n + 1 => loopOut env n ++ loop (env.ticks n) (env.samples n)

/-- The decimal expansion of `b` (with `b < 10 ^ k`) padded to exactly `k`
digits: the characterization of what `fracDigits` produces. -/
def decFrac : Nat → Nat → String
  | 0, _ => ""
  | k + 1, b => toString (b / 10 ^ k) ++ decFrac k (b % 10 ^ k)

/-- A concrete test environment: initialization succeeds, `millis()`
advances by 500 each iteration, every reading is a valid 450.2 mm. -/
def envOk : Env :=
  { initOk := true, ticks := fun n => 500 * n, samples := fun _ => ⟨450.2, true⟩ }

/-- Same observable inputs as `envOk`, but every reading is internally
marked invalid: the two runs must be indistinguishable. -/
def envOkFlag : Env :=
  { initOk := true, ticks := fun n => 500 * n, samples := fun _ => ⟨450.2, false⟩ }

/-- A concrete test environment in which initialization fails. -/
def envFail : Env :=
  { initOk := false, ticks := fun _ => 0, samples := fun _ => ⟨0, true⟩ }

lemma nat_odd_div_two_mul (a P : ℕ) : (2 * a + 1) / (2 * P) = a / P := by
  rw [← Nat.div_div_eq_div_mul]
  congr 1
  omega

lemma floorNat_odd_div (a P : ℕ) :
    ⌊((2 * a + 1 : ℕ) : ℚ) / ((2 * P : ℕ) : ℚ)⌋₊ = a / P := by
  rw [Nat.floor_div_eq_div, nat_odd_div_two_mul]

lemma rem_step (a P : ℕ) (hP : 0 < P) :
    ((2 * a + 1 : ℕ) : ℚ) / ((2 * P : ℕ) : ℚ) - ((a / P : ℕ) : ℚ)
      = ((2 * (a % P) + 1 : ℕ) : ℚ) / ((2 * P : ℕ) : ℚ) := by
  have h : (P : ℚ) * ((a / P : ℕ) : ℚ) + ((a % P : ℕ) : ℚ) = (a : ℚ) := by
    exact_mod_cast congrArg (fun n : ℕ => (n : ℚ)) (Nat.div_add_mod a P)
  have hP2 : ((2 * P : ℕ) : ℚ) ≠ 0 := by
    have : (0 : ℚ) < ((2 * P : ℕ) : ℚ) := by exact_mod_cast Nat.succ_le_of_lt (by omega)
    exact ne_of_gt this
  push_cast at h ⊢
  field_simp
  ring_nf
  ring_nf at h
  linarith [h]

lemma fracDigits_eq_decFrac : ∀ (k b : ℕ), b < 10 ^ k →
    fracDigits (((2 * b + 1 : ℕ) : ℚ) / ((2 * 10 ^ k : ℕ) : ℚ)) k = decFrac k b
  | 0, b, hb => by
      simp [fracDigits, decFrac]
  | k + 1, b, hb => by
      have hmul : (((2 * b + 1 : ℕ) : ℚ) / ((2 * 10 ^ (k + 1) : ℕ) : ℚ)) * 10
          = ((2 * b + 1 : ℕ) : ℚ) / ((2 * 10 ^ k : ℕ) : ℚ) := by
        have h10 : ((2 * 10 ^ (k + 1) : ℕ) : ℚ) = ((2 * 10 ^ k : ℕ) : ℚ) * 10 := by
          push_cast
          ring
        rw [h10, div_mul_eq_div_div]
        have hne : ((2 * 10 ^ k : ℕ) : ℚ) ≠ 0 := by
          have : (0 : ℕ) < 2 * 10 ^ k := by positivity
          exact_mod_cast Nat.pos_iff_ne_zero.mp this
        field_simp
        ring
      show toString ⌊(((2 * b + 1 : ℕ) : ℚ) / ((2 * 10 ^ (k + 1) : ℕ) : ℚ)) * 10⌋₊ ++
          fracDigits _ k = decFrac (k + 1) b
      rw [hmul, floorNat_odd_div, rem_step b (10 ^ k) (by positivity),
        fracDigits_eq_decFrac k (b % 10 ^ k) (Nat.mod_lt _ (by positivity))]
      rfl

/-- Exact characterization of the Arduino float rendering on a nonnegative
decimal input: printing `a / 10 ^ d` with `d` digits yields the integer
part, a point, and the `d`-digit padded decimal expansion of `a % 10 ^ d`.
In particular the output has exactly `d` decimal places. -/
theorem printFloat_eq_digits (a d : ℕ) (hd : 0 < d) :
    printFloat ((a : ℚ) / ((10 ^ d : ℕ) : ℚ)) d
      = toString (a / 10 ^ d) ++ "." ++ decFrac d (a % 10 ^ d) := by
  have hpow : (0 : ℚ) < ((10 ^ d : ℕ) : ℚ) := by
    exact_mod_cast Nat.pos_pow_of_pos d (by omega)
  have hx : ¬ ((a : ℚ) / ((10 ^ d : ℕ) : ℚ) < 0) :=
    not_lt.mpr (div_nonneg (Nat.cast_nonneg a) (le_of_lt hpow))
  have hy : (a : ℚ) / ((10 ^ d : ℕ) : ℚ) + 1 / (2 * 10 ^ d)
      = ((2 * a + 1 : ℕ) : ℚ) / ((2 * 10 ^ d : ℕ) : ℚ) := by
    have hne : ((10 ^ d : ℕ) : ℚ) ≠ 0 := ne_of_gt hpow
    push_cast at hne ⊢
    field_simp
    ring
  have hd0 : ¬ (d = 0) := Nat.pos_iff_ne_zero.mp hd
  simp only [printFloat]
  rw [if_neg hx, if_neg hx, if_neg hd0, hy,
    floorNat_odd_div, rem_step a (10 ^ d) (by positivity),
    fracDigits_eq_decFrac d (a % 10 ^ d) (Nat.mod_lt _ (by positivity))]
  have hemp : ∀ s : String, "" ++ s = s := fun s => String.ext (List.nil_append s.data)
  rw [hemp, ← String.append_assoc]

lemma printFloat_div1000 (t : ℕ) :
    printFloat ((t : ℚ) / 1000) 3 = toString (t / 1000) ++ "." ++ decFrac 3 (t % 1000) := by
  have h : (t : ℚ) / 1000 = (t : ℚ) / ((10 ^ 3 : ℕ) : ℚ) := by norm_num
  rw [h, printFloat_eq_digits t 3 (by omega)]
  norm_num

lemma printFloat_450_2 : printFloat (450.2 : ℚ) 2 = "450.20" := by
  have h : (450.2 : ℚ) = ((45020 : ℕ) : ℚ) / ((10 ^ 2 : ℕ) : ℚ) := by norm_num
  rw [h, printFloat_eq_digits 45020 2 (by omega)]
  decide

lemma run_zero (env : Env) : run env 0 = (ExecState.boot, []) := rfl

lemma run_succ (env : Env) (n : Nat) :
    run env (n + 1)
      = ((step env (run env n).1).1, (run env n).2 ++ (step env (run env n).1).2) := rfl

lemma run_state_false {env : Env} (h : env.initOk = false) :
    ∀ n, (run env (n + 1)).1 = ExecState.halted
  | 0 => by simp [run_succ, run_zero, step, h]
  | n + 1 => by rw [run_succ, run_state_false h n]; rfl

lemma run_out_false {env : Env} (h : env.initOk = false) :
    ∀ n, (run env (n + 1)).2 = setup false
  | 0 => by simp [run_succ, run_zero, step, h]
  | n + 1 => by
      rw [run_succ, run_state_false h n, run_out_false h n]
      simp [step]

lemma run_state_true {env : Env} (h : env.initOk = true) :
    ∀ n, (run env (n + 1)).1 = ExecState.running n
  | 0 => by simp [run_succ, run_zero, step, h]
  | n + 1 => by rw [run_succ, run_state_true h n]; rfl

lemma run_out_true {env : Env} (h : env.initOk = true) :
    ∀ n, (run env (n + 1)).2 = setup true ++ loopOut env n
  | 0 => by simp [run_succ, run_zero, step, h, loopOut]
  | n + 1 => by
      rw [run_succ, run_state_true h n, run_out_true h n]
      simp [step, loopOut]

lemma linesOf_append (l₁ l₂ : List Effect) :
    linesOf (l₁ ++ l₂) = linesOf l₁ ++ linesOf l₂ :=
  List.filterMap_append l₁ l₂ _

lemma linesOf_loop (tick : Nat) (r : Reading) :
    linesOf (loop tick r)
      = if r.value < DISTANCE_THRESHOLD
        then [printFloat ((tick : ℚ) / 1000) 3 ++ " " ++ printFloat r.value 2]
        else [] := by
  by_cases hv : r.value < DISTANCE_THRESHOLD <;> simp [loop, linesOf, hv]

lemma linesOf_setup_false :
    linesOf (setup false)
      = ["Initializing...", "Failed to initialize sensor! Restarting..."] := rfl

lemma linesOf_setup_true :
    linesOf (setup true)
      = ["Initializing...", "Sensor initialized successfully."] := rfl

lemma writesOf_append (l₁ l₂ : List Effect) :
    writesOf (l₁ ++ l₂) = writesOf l₁ ++ writesOf l₂ :=
  List.filterMap_append l₁ l₂ _

lemma writesOf_setup (b : Bool) : writesOf (setup b) = [] := by cases b <;> rfl

lemma writesOf_loop (tick : Nat) (r : Reading) : writesOf (loop tick r) = [] := by
  by_cases hv : r.value < DISTANCE_THRESHOLD <;> simp [loop, writesOf, hv]

lemma writesOf_run (env : Env) : ∀ n, writesOf (run env n).2 = []
  | 0 => rfl
  | n + 1 => by
      rw [run_succ, writesOf_append, writesOf_run env n, List.nil_append]
      cases hs : (run env n).1 with
      | boot => cases henv : env.initOk <;> simp [step, henv, writesOf_setup]
      | halted => rfl
      | running k => exact writesOf_loop _ _
      | done => rfl

lemma countSC_append (l₁ l₂ : List Effect) :
    countStartContinuous (l₁ ++ l₂) = countStartContinuous l₁ + countStartContinuous l₂ :=
  List.countP_append _ l₁ l₂

lemma countSC_setup_true : countStartContinuous (setup true) = 1 := rfl

lemma countSC_loop (tick : Nat) (r : Reading) : countStartContinuous (loop tick r) = 0 := by
  by_cases hv : r.value < DISTANCE_THRESHOLD <;> simp [loop, countStartContinuous, hv]

lemma countSC_loopOut (env : Env) : ∀ n, countStartContinuous (loopOut env n) = 0
  | 0 => rfl
  | n + 1 => by
      rw [loopOut, countSC_append, countSC_loopOut env n, countSC_loop]

lemma countReads_append (l₁ l₂ : List Effect) :
    countReads (l₁ ++ l₂) = countReads l₁ + countReads l₂ :=
  List.countP_append _ l₁ l₂

lemma countReads_setup (b : Bool) : countReads (setup b) = 0 := by cases b <;> rfl

lemma step_congr (e₁ e₂ : Env) (h0 : e₁.initOk = e₂.initOk)
    (ht : ∀ i, e₁.ticks i = e₂.ticks i)
    (hs : ∀ i, (e₁.samples i).value = (e₂.samples i).value) :
    ∀ s, step e₁ s = step e₂ s
  | ExecState.boot => by simp [step, h0]
  | ExecState.halted => rfl
  | ExecState.running k => by
      show (ExecState.running (k + 1), loop (e₁.ticks k) (e₁.samples k))
        = (ExecState.running (k + 1), loop (e₂.ticks k) (e₂.samples k))
      rw [ht k]
      unfold loop
      rw [hs k]
  | ExecState.done => rfl

lemma run_congr (e₁ e₂ : Env) (h0 : e₁.initOk = e₂.initOk)
    (ht : ∀ i, e₁.ticks i = e₂.ticks i)
    (hs : ∀ i, (e₁.samples i).value = (e₂.samples i).value) :
    ∀ n, run e₁ n = run e₂ n
  | 0 => rfl
  | n + 1 => by
      rw [run_succ, run_succ, run_congr e₁ e₂ h0 ht hs n, step_congr e₁ e₂ h0 ht hs]

/-- C1: in every poll-loop iteration `k` of a successfully initialized run,
a sample strictly below 600.0 mm makes the iteration emit exactly one line,
the elapsed time followed by a single space and the distance value, while a
sample at or above 600.0 mm emits nothing. -/
theorem loop_emits_iff_below_threshold (env : Env) (k : Nat) (h : env.initOk = true) :
    linesOf (run env (k + 2)).2
      = linesOf (run env (k + 1)).2 ++
        (if (env.samples k).value < DISTANCE_THRESHOLD
         then [printFloat ((env.ticks k : ℚ) / 1000) 3 ++ " " ++
                printFloat (env.samples k).value 2]
         else []) := by
  rw [run_succ, run_state_true h k]
  show linesOf ((run env (k + 1)).2 ++ loop (env.ticks k) (env.samples k)) = _
  rw [linesOf_append, linesOf_loop]

theorem loop_emits_iff_below_threshold_witness :
    envOk.initOk = true ∧
    linesOf (run envOk 2).2
      = linesOf (run envOk 1).2 ++
        (if (envOk.samples 0).value < DISTANCE_THRESHOLD
         then [printFloat ((envOk.ticks 0 : ℚ) / 1000) 3 ++ " " ++
                printFloat (envOk.samples 0).value 2]
         else []) :=
  ⟨rfl, loop_emits_iff_below_threshold envOk 0 rfl⟩

/-- C2: every emitted line starts with the elapsed time, which is the
current tick count divided by 1000 rendered with exactly 3 decimal places
(integer part, point, 3-digit padded fraction); and whenever the tick
counter is monotone, the reported elapsed time is monotonically
non-decreasing across iterations. -/
theorem elapsed_time_reported (env : Env) (h : Monotone env.ticks) :
    (∀ k l, l ∈ linesOf (loop (env.ticks k) (env.samples k)) →
        l = printFloat ((env.ticks k : ℚ) / 1000) 3 ++ " " ++
            printFloat (env.samples k).value 2) ∧
    (∀ t : Nat, printFloat ((t : ℚ) / 1000) 3
        = toString (t / 1000) ++ "." ++ decFrac 3 (t % 1000)) ∧
    Monotone (fun k => ((env.ticks k : ℚ) / 1000)) := by
  refine ⟨?_, printFloat_div1000, ?_⟩
  · intro k l hl
    rw [linesOf_loop] at hl
    by_cases hv : (env.samples k).value < DISTANCE_THRESHOLD
    · rw [if_pos hv] at hl
      simpa using hl
    · rw [if_neg hv] at hl
      exact absurd hl (List.not_mem_nil l)
  · intro a b hab
    have h1 : (env.ticks a : ℚ) ≤ (env.ticks b : ℚ) := by exact_mod_cast h hab
    exact div_le_div_of_nonneg_right h1 (by norm_num) |>.trans_eq rfl

theorem elapsed_time_reported_witness :
    Monotone envOk.ticks ∧
    printFloat ((envOk.ticks 3 : ℚ) / 1000) 3
      = toString (envOk.ticks 3 / 1000) ++ "." ++ decFrac 3 (envOk.ticks 3 % 1000) :=
  have hm : Monotone envOk.ticks := fun _ _ hab => Nat.mul_le_mul_left 500 hab
  ⟨hm, (elapsed_time_reported envOk hm).2.1 (envOk.ticks 3)⟩

/-- C3: if sensor initialization fails, the failure message appears exactly
once in the serial output, the whole output stays at the two setup lines
(so no distance line is ever emitted), and the poll loop is never
reached. -/
theorem init_failure_message_once (env : Env) (h : env.initOk = false) (n : Nat) :
    (linesOf (run env (n + 1)).2).count "Failed to initialize sensor! Restarting..." = 1 ∧
    linesOf (run env (n + 1)).2
      = ["Initializing...", "Failed to initialize sensor! Restarting..."] ∧
    (∀ k, (run env (n + 1)).1 ≠ ExecState.running k) := by
  rw [run_out_false h, run_state_false h, linesOf_setup_false]
  refine ⟨by decide, rfl, ?_⟩
  intro k hk
  exact ExecState.noConfusion hk

theorem init_failure_message_once_witness :
    envFail.initOk = false ∧
    linesOf (run envFail 4).2
      = ["Initializing...", "Failed to initialize sensor! Restarting..."] :=
  ⟨rfl, (init_failure_message_once envFail rfl 3).2.1⟩

/-- C4 as frozen is false on the code: in the failed-initialization run the
total serial output is not the failure message only, because setup also
prints the line Initializing... before checking the sensor. -/
theorem init_failure_output_not_only_failure :
    linesOf (run envFail 1).2 ≠ ["Failed to initialize sensor! Restarting..."] ∧
    linesOf (run envFail 1).2
      = ["Initializing...", "Failed to initialize sensor! Restarting..."] := by
  exact ⟨by decide, by decide⟩

/-- C4 (amended): in the run where init returns failure, the total serial
output is the initialization banner followed by the failure message and
nothing else, the poll loop never runs (no sensor read ever happens and the
state never reaches `running`), and the process never terminates on its
own. -/
theorem init_failure_total_output (env : Env) (h : env.initOk = false) :
    (∀ n, linesOf (run env (n + 1)).2
        = ["Initializing...", "Failed to initialize sensor! Restarting..."]) ∧
    (∀ n, countReads (run env n).2 = 0) ∧
    (∀ n k, (run env n).1 ≠ ExecState.running k) ∧
    (∀ n, (run env n).1 ≠ ExecState.done) := by
  refine ⟨?_, ?_, ?_, ?_⟩
  · intro n
    rw [run_out_false h, linesOf_setup_false]
  · intro n
    cases n with
    | zero => rfl
    | succ m => rw [run_out_false h, countReads_setup]
  · intro n k
    cases n with
    | zero => exact fun hk => ExecState.noConfusion hk
    | succ m => rw [run_state_false h]; exact fun hk => ExecState.noConfusion hk
  · intro n
    cases n with
    | zero => exact fun hk => ExecState.noConfusion hk
    | succ m => rw [run_state_false h]; exact fun hk => ExecState.noConfusion hk

theorem init_failure_total_output_witness :
    envFail.initOk = false ∧
    linesOf (run envFail 2).2
      = ["Initializing...", "Failed to initialize sensor! Restarting..."] :=
  ⟨rfl, (init_failure_total_output envFail rfl).1 1⟩

/-- C5: when sensor initialization succeeds, continuous-sampling mode is
enabled exactly once in the whole trace, it is already enabled by the end
of setup (before the first poll-loop iteration), and no loop iteration ever
enables it again. -/
theorem start_continuous_once_before_loop (env : Env) (h : env.initOk = true) :
    countStartContinuous (run env 1).2 = 1 ∧
    (∀ n, countStartContinuous (run env (n + 1)).2 = 1) ∧
    (∀ tick r, countStartContinuous (loop tick r) = 0) := by
  refine ⟨?_, ?_, countSC_loop⟩
  · rw [run_out_true h 0]
    show countStartContinuous (setup true ++ []) = 1
    rw [countSC_append, countSC_setup_true]
    rfl
  · intro n
    rw [run_out_true h n, countSC_append, countSC_setup_true, countSC_loopOut]

theorem start_continuous_once_before_loop_witness :
    envOk.initOk = true ∧ countStartContinuous (run envOk 1).2 = 1 :=
  ⟨rfl, (start_continuous_once_before_loop envOk rfl).1⟩

/-- C6: the iteration with tick count 1500 ms and sample 450.2 mm emits
exactly the line 1.500 450.20. -/
theorem tick1500_sample450_line :
    linesOf (loop 1500 ⟨450.2, true⟩) = ["1.500 450.20"] := by
  rw [linesOf_loop]
  rw [if_pos (show (Reading.mk 450.2 true).value < DISTANCE_THRESHOLD by
        norm_num [DISTANCE_THRESHOLD, Reading.value])]
  show [printFloat (((1500 : ℕ) : ℚ) / 1000) 3 ++ " " ++ printFloat (450.2 : ℚ) 2] = _
  rw [printFloat_div1000 1500, printFloat_450_2]
  decide

/-- C7: on initialization failure the run is in the terminal halted
busy-wait from the first step on: the halted state steps to itself with no
effects, every later state is halted (never the poll loop), and the
cumulative output never changes after the failure report. -/
theorem halted_state_is_terminal (env : Env) (h : env.initOk = false) :
    step env ExecState.halted = (ExecState.halted, []) ∧
    (∀ n, (run env (n + 1)).1 = ExecState.halted) ∧
    (∀ n, (run env (n + 1)).2 = (run env 1).2) ∧
    (∀ n k, (run env n).1 ≠ ExecState.running k) := by
  refine ⟨rfl, run_state_false h, ?_, ?_⟩
  · intro n
    rw [run_out_false h n, run_out_false h 0]
  · intro n k
    cases n with
    | zero => exact fun hk => ExecState.noConfusion hk
    | succ m => rw [run_state_false h]; exact fun hk => ExecState.noConfusion hk

theorem halted_state_is_terminal_witness :
    envFail.initOk = false ∧ (run envFail 6).1 = ExecState.halted :=
  ⟨rfl, (halted_state_is_terminal envFail rfl).2.1 5⟩

/-- C8: the digital output pin `intLED` is configured as an output during
setup, and no operation of the program ever drives it: the whole trace of
any run contains no `digitalWrite`, and in particular no poll-loop
iteration changes the pin state. -/
theorem pin_configured_never_driven (env : Env) (n : Nat) :
    (∀ b, Effect.pinMode intLED true ∈ setup b) ∧
    writesOf (run env n).2 = [] ∧
    (∀ tick r, writesOf (loop tick r) = []) := by
  refine ⟨?_, writesOf_run env n, writesOf_loop⟩
  intro b
  cases b <;> simp [setup]

/-- C9: after initialization no read error is detected or surfaced: a
reading flagged internally as failed or out of range produces exactly the
same iteration effects as a valid reading of the same numeric value, and
the line is emitted or suppressed solely by the threshold comparison. -/
theorem read_error_indistinguishable (tick : Nat) (v : ℚ) (ok₁ ok₂ : Bool) :
    loop tick ⟨v, ok₁⟩ = loop tick ⟨v, ok₂⟩ ∧
    linesOf (loop tick ⟨v, ok₁⟩)
      = (if v < DISTANCE_THRESHOLD
         then [printFloat ((tick : ℚ) / 1000) 3 ++ " " ++ printFloat v 2]
         else []) :=
  ⟨rfl, linesOf_loop tick ⟨v, ok₁⟩⟩

/-- C10: the program is deterministic in its external inputs: two runs with
the same init result, the same tick sequence and the same sensor reading
values produce identical serial output, whatever the internal validity of
the readings. -/
theorem run_deterministic_in_inputs (e₁ e₂ : Env) (h0 : e₁.initOk = e₂.initOk)
    (ht : ∀ i, e₁.ticks i = e₂.ticks i)
    (hs : ∀ i, (e₁.samples i).value = (e₂.samples i).value) (n : Nat) :
    linesOf (run e₁ n).2 = linesOf (run e₂ n).2 := by
  rw [run_congr e₁ e₂ h0 ht hs n]

theorem run_deterministic_in_inputs_witness :
    linesOf (run envOk 3).2 = linesOf (run envOkFlag 3).2 :=
  run_deterministic_in_inputs envOk envOkFlag rfl (fun _ => rfl) (fun _ => rfl) 3
